import Mathlib

/-!
Shallow embedding of the motor-control web client
(src/motor-control.js, class MotorController).

States are explicit records.  DOM and network effects are modelled as
data carried by the controller record: the on-screen log is a list of
entry strings, the connection-status indicator keeps both its current
value and the history of values it was set to, and outgoing MQTT
publishes are collected in a list of (topic, payload) pairs.
Wall-clock timestamps (new Date()) are environmental inputs and are
passed as explicit string parameters.  JSON.parse is environmental as
well and is passed as a function parameter to handleIncomingMessage;
a result of none models the exception branch.
-/

/-- Motor state record (constructor, lines 8-12): isOn, speed, direction.
The source stores direction as a string ('forward' or 'reverse'). -/
structure MotorState where
  isOn : Bool
  speed : Int
  direction : String
  deriving Repr, DecidableEq

/-- Initial motor state from the constructor: off, speed 0, forward. -/
def initialMotorState : MotorState :=
  { isOn := false, speed := 0, direction := "forward" }

/-- this.topics.motor = 'akuri/motor/control'. -/
def topics_motor : String := "akuri/motor/control"

/-- this.topics.status = 'akuri/motor/status'. -/
def topics_status : String := "akuri/motor/status"

/-- this.topics.log = 'akuri/motor/log'. -/
def topics_log : String := "akuri/motor/log"

/-- Paho MQTT client handle, as created by new Paho.Client(host, port, clientId). -/
structure PahoClient where
  host : String
  port : Int
  clientId : String
  deriving Repr, DecidableEq

/-- Rendered UI fields written by updateUI (lines 284-325):
speed display, power status text, direction status text, connect-button
label. -/
structure UIView where
  speedValue : String
  powerText : String
  directionText : String
  connectText : String
  deriving Repr, DecidableEq

/-- updateUI as a pure rendering function of the motor state and
connection flag (lines 284-325). -/
def renderUI (s : MotorState) (isConnected : Bool) : UIView :=
  { speedValue := toString s.speed
    powerText := if s.isOn then "Motor: ON" else "Motor: OFF"
    directionText :=
      if s.direction = "forward" then "Direction: FORWARD" else "Direction: REVERSE"
    connectText := if isConnected then "Disconnect" else "Connect to MQTT" }

/-- Whole-controller state: session handle, connection flag, motor
state, current status-indicator value, history of status-indicator
updates, on-screen log, rendered UI, published messages
(topic, payload) and subscribed topics. -/
structure Controller where
  client : Option PahoClient
  isConnected : Bool
  motorState : MotorState
  connectionStatus : String
  statusHistory : List String
  log : List String
  ui : UIView
  published : List (String × String)
  subscribed : List String
  deriving Repr, DecidableEq

/-- Controller state right after the constructor: no client, not
connected, initial motor state, empty log, status indicator showing
disconnected. -/
def initialController : Controller :=
  { client := none
    isConnected := false
    motorState := initialMotorState
    connectionStatus := "disconnected"
    statusHistory := []
    log := []
    ui := renderUI initialMotorState false
    published := []
    subscribed := [] }

/-- Text of one log entry (addLogEntry line 354). -/
def logEntryText (timestamp message : String) : String :=
  "[" ++ timestamp ++ "] " ++ message

/-- addLogEntry (lines 350-364): append the new entry; if the buffer
then exceeds 50 entries, remove the single oldest one. -/
def addLogEntry (timestamp message : String) (log : List String) : List String :=
  let appended := log ++ [logEntryText timestamp message]
  if appended.length > 50 then appended.drop 1 else appended

/-- this.addLogEntry lifted to the controller record. -/
def ctrlLog (timestamp message : String) (c : Controller) : Controller :=
  { c with log := addLogEntry timestamp message c.log }

/-- updateConnectionStatus (lines 327-348): record the new indicator
value and append it to the history of indicator updates. -/
def updateConnectionStatus (status : String) (c : Controller) : Controller :=
  { c with connectionStatus := status, statusHistory := c.statusHistory ++ [status] }

/-- JSON values appearing in the published motor-state object. -/
inductive JValue where
  | jbool : Bool → JValue
  | jint : Int → JValue
  | jstr : String → JValue
  deriving Repr, DecidableEq

/-- JSON string escaping for the characters that can occur in the
serialized fields (quote, backslash, newline, return, tab). -/
def jsonEscapeChar (c : Char) : String :=
  if c = '"' then "\\\""
  else if c = '\\' then "\\\\"
  else if c = '\n' then "\\n"
  else if c = '\r' then "\\r"
  else if c = '\t' then "\\t"
  else String.singleton c

/-- JSON string escaping over a whole string. -/
def jsonEscape (s : String) : String :=
  String.join (s.toList.map jsonEscapeChar)

/-- Serialization of one JSON value, as JSON.stringify renders it. -/
def jvalueToString : JValue → String
  | .jbool b => if b then "true" else "false"
  | .jint n => toString n
  | .jstr s => "\"" ++ jsonEscape s ++ "\""

/-- JSON.stringify of an object literal: the fields in source order,
between braces, comma separated. -/
def jsonStringify (fields : List (String × JValue)) : String :=
  "\x7b" ++
    String.intercalate ","
      (fields.map (fun p => "\"" ++ jsonEscape p.1 ++ "\":" ++ jvalueToString p.2)) ++
  "\x7d"

/-- The payload built by publishMotorState (lines 274-279): the JSON
object with exactly the fields isOn, speed, direction, timestamp. -/
def motorStateJson (s : MotorState) (ts : String) : String :=
  jsonStringify
    [("isOn", JValue.jbool s.isOn),
     ("speed", JValue.jint s.speed),
     ("direction", JValue.jstr s.direction),
     ("timestamp", JValue.jstr ts)]

/-- publishMotorState (lines 271-282): returns silently unless a client
handle exists and isConnected; otherwise publishes the JSON motor state
on the motor topic. -/
def publishMotorState (ts : String) (c : Controller) : Controller :=
  if c.client.isNone || !c.isConnected then c
  else { c with published := c.published ++ [(topics_motor, motorStateJson c.motorState ts)] }

/-- The motor-state update of setSpeed (line 237):
speed := Math.max(0, Math.min(100, speed)). -/
def setSpeedState (n : Int) (s : MotorState) : MotorState :=
  { s with speed := max 0 (min 100 n) }

/-- The motor-state update of toggleMotor (line 248): isOn := !isOn. -/
def toggleMotorState (s : MotorState) : MotorState :=
  { s with isOn := !s.isOn }

/-- The motor-state update of toggleDirection (line 260):
direction := direction === 'forward' ? 'reverse' : 'forward'. -/
def toggleDirectionState (s : MotorState) : MotorState :=
  { s with direction := if s.direction = "forward" then "reverse" else "forward" }

/-- The shared body of the three mutators (lines 238-244, 249-256,
261-268): store the new motor state, refresh the UI (updateUI reads
motor state and connection flag), publish if connected, then append the
mutator's log line. -/
def mutate (s : MotorState) (msg : String) (ts : String) (c : Controller) : Controller :=
  let c1 := { c with motorState := s, ui := renderUI s c.isConnected }
  let c2 := if c1.isConnected then publishMotorState ts c1 else c1
  ctrlLog ts msg c2

/-- setSpeed (lines 236-245): clamp and store the speed, refresh the
UI, publish if connected, then log the stored speed. -/
def setSpeed (n : Int) (ts : String) (c : Controller) : Controller :=
  let s := setSpeedState n c.motorState
  mutate s ("Speed set to " ++ toString s.speed ++ "%") ts c

/-- toggleMotor (lines 247-257): flip isOn, refresh the UI, publish if
connected, then log ON or OFF. -/
def toggleMotor (ts : String) (c : Controller) : Controller :=
  let s := toggleMotorState c.motorState
  mutate s ("Motor turned " ++ (if s.isOn then "ON" else "OFF")) ts c

/-- toggleDirection (lines 259-269): flip direction, refresh the UI,
publish if connected, then log the upper-cased direction. -/
def toggleDirection (ts : String) (c : Controller) : Controller :=
  let s := toggleDirectionState c.motorState
  mutate s ("Direction changed to " ++ s.direction.toUpper) ts c

/-- Whitespace test for the trim model (space, tab, newline, return;
the JS trim additionally strips rarer Unicode whitespace). -/
def jsWhitespaceChar (c : Char) : Bool :=
  c = ' ' || c = '\t' || c = '\n' || c = '\r'

/-- String.prototype.trim, modelled over the character list so that
terms evaluate by kernel reduction. -/
def jsTrim (s : String) : String :=
  String.mk (((s.data.dropWhile jsWhitespaceChar).reverse.dropWhile jsWhitespaceChar).reverse)

/-- String.prototype.startsWith, over the character list. -/
def strStartsWith (s pre : String) : Bool :=
  pre.data.isPrefixOf s.data

/-- Drop the first n characters of a string (used to strip the scheme
prefix). -/
def strDrop (s : String) (n : Nat) : String :=
  String.mk (s.data.drop n)

/-- Numeric value of a digit list (the all-digit case of parseInt). -/
def digitsToNat? (l : List Char) : Option Nat :=
  if l = [] || !(l.all Char.isDigit) then none
  else some (l.foldl (fun n c => n * 10 + (c.toNat - 48)) 0)

/-- The authority portion of a URL remainder: everything before the
first slash. -/
def urlAuthority (rest : String) : List Char :=
  rest.data.takeWhile (fun c => c ≠ '/')

/-- url.hostname of the remainder after the scheme prefix: the
authority up to the port separator. -/
def urlHostname (rest : String) : String :=
  String.mk ((urlAuthority rest).takeWhile (fun c => c ≠ ':'))

/-- parseInt(url.port) || default: a missing, unparsable or zero port
falls back to the scheme default (lines 132, 137, 142). -/
def urlPort (rest : String) (dflt : Int) : Int :=
  match (urlAuthority rest).dropWhile (fun c => c ≠ ':') with
  | [] => dflt
  | _ :: p =>
    match digitsToNat? p with
    | some n => if n = 0 then dflt else Int.ofNat n
    | none => dflt

/-- The scheme dispatch of connect (lines 127-146): ws:// (default port
8000, no SSL), wss:// (8884, SSL), mqtt:// (1883, no SSL); any other
prefix throws the unsupported-protocol error, modelled as none. -/
def parseBroker (brokerUrl : String) : Option (String × Int × Bool) :=
  if strStartsWith brokerUrl "ws://" then
    let rest := strDrop brokerUrl 5
    some (urlHostname rest, urlPort rest 8000, false)
  else if strStartsWith brokerUrl "wss://" then
    let rest := strDrop brokerUrl 6
    some (urlHostname rest, urlPort rest 8884, true)
  else if strStartsWith brokerUrl "mqtt://" then
    let rest := strDrop brokerUrl 7
    some (urlHostname rest, urlPort rest 1883, false)
  else none

/-- Outcome of the asynchronous broker session attempt: which of the
onSuccess / onFailure callbacks of client.connect eventually fires, and
with which error message. -/
inductive SessionOutcome where
  | success : SessionOutcome
  | failure : String → SessionOutcome
  deriving Repr, DecidableEq

/-- subscribeToTopics (lines 201-215): no-op unless a client exists and
isConnected; otherwise subscribe to the motor, status and log topics in
insertion order, logging each grant. -/
def subscribeToTopics (ts : String) (c : Controller) : Controller :=
  if c.client.isNone || !c.isConnected then c
  else
    let c1 := { c with subscribed := c.subscribed ++ [topics_motor, topics_status, topics_log] }
    let c2 := ctrlLog ts ("Subscribed to topic: " ++ topics_motor) c1
    let c3 := ctrlLog ts ("Subscribed to topic: " ++ topics_status) c2
    ctrlLog ts ("Subscribed to topic: " ++ topics_log) c3

/-- connect (lines 100-189).  Inputs are the raw text of the broker-URL
and client-ID fields, whether the Paho library is loaded, and the
session outcome delivered to the client.connect callbacks.  Missing
inputs log an error and return early; a missing library or an
unsupported scheme is thrown and caught, logging the reason and setting
the status indicator to error; otherwise a client is created and the
success or failure callback runs (success: isConnected, status
connected, log, subscribe, publish; failure: log reason, status
error). -/
def connect (brokerUrlRaw clientIdRaw : String) (pahoLoaded : Bool)
    (outcome : SessionOutcome) (ts : String) (c : Controller) : Controller :=
  let brokerUrl := jsTrim brokerUrlRaw
  let clientId := jsTrim clientIdRaw
  if brokerUrl = "" then
    ctrlLog ts "Error: Please enter a broker URL" c
  else if clientId = "" then
    ctrlLog ts "Error: Please enter a client ID" c
  else if !pahoLoaded then
    updateConnectionStatus "error"
      (ctrlLog ts "Connection failed: Paho MQTT library not loaded" c)
  else
    let c1 := updateConnectionStatus "connecting"
      (ctrlLog ts ("Connecting to MQTT broker: " ++ brokerUrl) c)
    match parseBroker brokerUrl with
    | none =>
      updateConnectionStatus "error"
        (ctrlLog ts "Connection failed: Unsupported protocol. Use ws://, wss://, or mqtt://" c1)
    | some (host, port, _useSSL) =>
      let c2 := { c1 with client := some { host := host, port := port, clientId := clientId } }
      match outcome with
      | .success =>
        let c3 := updateConnectionStatus "connected" { c2 with isConnected := true }
        let c4 := ctrlLog ts "Successfully connected to MQTT broker" c3
        let c5 := subscribeToTopics ts c4
        publishMotorState ts c5
      | .failure err =>
        updateConnectionStatus "error"
          (ctrlLog ts ("Connection failed: " ++ err) c2)

/-- disconnect (lines 191-199): the client handle is discarded only
when one exists and isConnected; then isConnected is cleared, the
status indicator is set to disconnected and the call is logged. -/
def disconnect (ts : String) (c : Controller) : Controller :=
  let c1 := if c.client.isSome && c.isConnected then { c with client := none } else c
  let c2 := { c1 with isConnected := false }
  let c3 := updateConnectionStatus "disconnected" c2
  ctrlLog ts "Disconnected from MQTT broker" c3

/-- The onConnectionLost callback (lines 152-156): clear isConnected,
set the indicator to disconnected, log the error message. -/
def onConnectionLost (errMsg ts : String) (c : Controller) : Controller :=
  ctrlLog ts ("Connection lost: " ++ errMsg)
    (updateConnectionStatus "disconnected" { c with isConnected := false })

/-- The object produced by a successful JSON.parse, as consumed by
handleIncomingMessage: only its message property is read; none models a
missing property, rendered as the text undefined. -/
structure JsonData where
  message : Option String
  deriving Repr, DecidableEq

/-- Template rendering of data.message: undefined when absent. -/
def jsGetMessage (d : JsonData) : String :=
  d.message.getD "undefined"

/-- handleIncomingMessage (lines 217-234), parameterized over the
JSON parser (none models a JSON.parse exception, which the source
catches): on success route by topic, on failure log the raw payload. -/
def handleIncomingMessage (parse : String → Option JsonData)
    (ts topic message : String) (c : Controller) : Controller :=
  match parse message with
  | some data =>
    if topic = topics_status then ctrlLog ts ("Status update: " ++ jsGetMessage data) c
    else if topic = topics_log then ctrlLog ts ("Motor log: " ++ jsGetMessage data) c
    else ctrlLog ts ("Received on " ++ topic ++ ": " ++ message) c
  | none => ctrlLog ts ("Received on " ++ topic ++ ": " ++ message) c

/-- clearLog (lines 366-368): the log pane is replaced by the single
entry Log cleared. -/
def clearLog (c : Controller) : Controller :=
  { c with log := ["Log cleared"] }

/-- One user action on the motor controls, with the wall-clock
timestamp observed during the handler. -/
inductive UiOp where
  | setSpeedOp : Int → String → UiOp
  | toggleMotorOp : String → UiOp
  | toggleDirectionOp : String → UiOp
  deriving Repr, DecidableEq

/-- Apply one motor-control action to the controller. -/
def applyUiOp (c : Controller) : UiOp → Controller
  | .setSpeedOp n ts => setSpeed n ts c
  | .toggleMotorOp ts => toggleMotor ts c
  | .toggleDirectionOp ts => toggleDirection ts c

/-- Run a sequence of motor-control actions from a starting state. -/
def runUiOps (c : Controller) (ops : List UiOp) : Controller :=
  ops.foldl applyUiOp c

/-- A sample controller state holding an open, connected session (as
produced by a successful connect), used to instantiate theorems at
concrete inputs. -/
def exampleConnected : Controller :=
  { initialController with
    client := some { host := "h", port := 8000, clientId := "id" }
    isConnected := true
    connectionStatus := "connected"
    statusHistory := ["connecting", "connected"] }

/-! Helper lemmas about the building blocks. -/

theorem ctrlLog_log (ts m : String) (c : Controller) :
    (ctrlLog ts m c).log = addLogEntry ts m c.log := rfl

theorem ctrlLog_keeps (ts m : String) (c : Controller) :
    (ctrlLog ts m c).client = c.client ∧ (ctrlLog ts m c).isConnected = c.isConnected ∧
    (ctrlLog ts m c).motorState = c.motorState ∧ (ctrlLog ts m c).ui = c.ui ∧
    (ctrlLog ts m c).published = c.published ∧
    (ctrlLog ts m c).connectionStatus = c.connectionStatus ∧
    (ctrlLog ts m c).statusHistory = c.statusHistory :=
  ⟨rfl, rfl, rfl, rfl, rfl, rfl, rfl⟩

theorem addLogEntry_getLast (ts msg : String) (log : List String) :
    (addLogEntry ts msg log).getLast? = some (logEntryText ts msg) := by
  unfold addLogEntry
  dsimp only
  split
  · cases log with
    | nil => simp_all
    | cons a t => simp [List.getLast?_append_cons]
  · simp [List.getLast?_append_cons]

theorem mutate_motorState (s : MotorState) (msg ts : String) (c : Controller) :
    (mutate s msg ts c).motorState = s := by
  unfold mutate ctrlLog publishMotorState
  dsimp only
  split
  · split <;> rfl
  · rfl

theorem mutate_ui (s : MotorState) (msg ts : String) (c : Controller) :
    (mutate s msg ts c).ui = renderUI s c.isConnected := by
  unfold mutate ctrlLog publishMotorState
  dsimp only
  split
  · split <;> rfl
  · rfl

theorem mutate_isConnected (s : MotorState) (msg ts : String) (c : Controller) :
    (mutate s msg ts c).isConnected = c.isConnected := by
  unfold mutate ctrlLog publishMotorState
  dsimp only
  split
  · split <;> rfl
  · rfl

theorem mutate_client (s : MotorState) (msg ts : String) (c : Controller) :
    (mutate s msg ts c).client = c.client := by
  unfold mutate ctrlLog publishMotorState
  dsimp only
  split
  · split <;> rfl
  · rfl

theorem mutate_log (s : MotorState) (msg ts : String) (c : Controller) :
    (mutate s msg ts c).log = addLogEntry ts msg c.log := by
  unfold mutate ctrlLog publishMotorState
  dsimp only
  split
  · split <;> rfl
  · rfl

theorem mutate_published (s : MotorState) (msg ts : String) (c : Controller) :
    (mutate s msg ts c).published =
      if c.client.isSome && c.isConnected then
        c.published ++ [(topics_motor, motorStateJson s ts)]
      else c.published := by
  unfold mutate ctrlLog publishMotorState
  dsimp only
  cases hcl : c.client <;> cases hco : c.isConnected <;> simp [hcl, hco]

/-! Claim theorems. -/

/-- C1: for every integer input n, setSpeed(n) sets the motor state's
speed field to n clamped into the interval [0,100], i.e. to
max(0, min(100, n)); in particular the stored speed always lies in
[0,100]. -/
theorem setSpeed_clamps (n : Int) (ts : String) (c : Controller) :
    (setSpeed n ts c).motorState.speed = max 0 (min 100 n) ∧
    0 ≤ (setSpeed n ts c).motorState.speed ∧
    (setSpeed n ts c).motorState.speed ≤ 100 := by
  have h : (setSpeed n ts c).motorState = setSpeedState n c.motorState :=
    mutate_motorState _ _ _ _
  rw [h]
  unfold setSpeedState
  refine ⟨rfl, ?_, ?_⟩ <;> dsimp only <;> omega

/-- C2: toggleMotor's and toggleDirection's state updates are
involutions on motor states (direction being one of the two source
values 'forward' / 'reverse', as the data model prescribes): applying
either twice restores the original motor state, all fields included. -/
theorem toggle_involutions (s : MotorState)
    (h : s.direction = "forward" ∨ s.direction = "reverse") :
    toggleMotorState (toggleMotorState s) = s ∧
    toggleDirectionState (toggleDirectionState s) = s := by
  cases s with
  | mk o sp d =>
    constructor
    · simp [toggleMotorState]
    · rcases h with h | h <;> simp_all [toggleDirectionState]

/-- Witness for C2 at the concrete motor state (on, speed 42, forward). -/
theorem toggle_involutions_witness :
    toggleMotorState (toggleMotorState { isOn := true, speed := 42, direction := "forward" }) =
      { isOn := true, speed := 42, direction := "forward" } ∧
    toggleDirectionState
        (toggleDirectionState { isOn := true, speed := 42, direction := "forward" }) =
      { isOn := true, speed := 42, direction := "forward" } :=
  toggle_involutions { isOn := true, speed := 42, direction := "forward" } (Or.inl rfl)

/-- C3: starting from a log of at most 50 entries, addLogEntry appends
the new entry and stays within the 50-entry cap; below the cap it is a
plain append, and at exactly 50 entries it additionally evicts exactly
the oldest (first) entry. -/
theorem addLogEntry_caps_at_50 (log : List String) (ts msg : String)
    (h : log.length ≤ 50) :
    (addLogEntry ts msg log).length ≤ 50 ∧
    (log.length < 50 → addLogEntry ts msg log = log ++ [logEntryText ts msg]) ∧
    (log.length = 50 → addLogEntry ts msg log = log.tail ++ [logEntryText ts msg]) := by
  unfold addLogEntry
  dsimp only
  by_cases hlt : log.length < 50
  · have hc : ¬ ((log ++ [logEntryText ts msg]).length > 50) := by
      simp only [List.length_append, List.length_singleton]
      omega
    rw [if_neg hc]
    exact ⟨by simp only [List.length_append, List.length_singleton]; omega,
           fun _ => rfl, fun he => absurd he (by omega)⟩
  · have he : log.length = 50 := by omega
    have hc : (log ++ [logEntryText ts msg]).length > 50 := by
      simp only [List.length_append, List.length_singleton]
      omega
    rw [if_pos hc]
    refine ⟨?_, fun hl => absurd hl hlt, fun _ => ?_⟩
    · simp only [List.length_drop, List.length_append, List.length_singleton]
      omega
    · cases log with
      | nil => simp at he
      | cons a t => simp

/-- Witness for C3 at a concrete full log of exactly 50 entries. -/
theorem addLogEntry_caps_at_50_witness :
    (addLogEntry "t" "m" (List.replicate 50 "x")).length ≤ 50 ∧
    ((List.replicate 50 "x" : List String).length < 50 →
      addLogEntry "t" "m" (List.replicate 50 "x") =
        List.replicate 50 "x" ++ [logEntryText "t" "m"]) ∧
    ((List.replicate 50 "x" : List String).length = 50 →
      addLogEntry "t" "m" (List.replicate 50 "x") =
        (List.replicate 50 "x" : List String).tail ++ [logEntryText "t" "m"]) :=
  addLogEntry_caps_at_50 (List.replicate 50 "x") "t" "m" (by simp)

theorem applyUiOp_motorState_inv (c : Controller) (op : UiOp)
    (h : (c.motorState.direction = "forward" ∨ c.motorState.direction = "reverse") ∧
      0 ≤ c.motorState.speed ∧ c.motorState.speed ≤ 100) :
    ((applyUiOp c op).motorState.direction = "forward" ∨
      (applyUiOp c op).motorState.direction = "reverse") ∧
    0 ≤ (applyUiOp c op).motorState.speed ∧ (applyUiOp c op).motorState.speed ≤ 100 := by
  obtain ⟨hd, hs0, hs1⟩ := h
  cases op with
  | setSpeedOp n ts =>
    have hm : (applyUiOp c (UiOp.setSpeedOp n ts)).motorState = setSpeedState n c.motorState := by
      show (mutate _ _ _ _).motorState = _
      exact mutate_motorState _ _ _ _
    rw [hm]
    unfold setSpeedState
    exact ⟨hd, by dsimp only; omega, by dsimp only; omega⟩
  | toggleMotorOp ts =>
    have hm : (applyUiOp c (UiOp.toggleMotorOp ts)).motorState = toggleMotorState c.motorState := by
      show (mutate _ _ _ _).motorState = _
      exact mutate_motorState _ _ _ _
    rw [hm]
    unfold toggleMotorState
    exact ⟨hd, hs0, hs1⟩
  | toggleDirectionOp ts =>
    have hm : (applyUiOp c (UiOp.toggleDirectionOp ts)).motorState =
        toggleDirectionState c.motorState := by
      show (mutate _ _ _ _).motorState = _
      exact mutate_motorState _ _ _ _
    rw [hm]
    unfold toggleDirectionState
    refine ⟨?_, hs0, hs1⟩
    dsimp only
    rcases hd with hd | hd <;> simp [hd]

/-- C10: starting from the initial motor state (off, speed 0, forward),
after any sequence of setSpeed (integer argument), toggleMotor and
toggleDirection actions, direction is always exactly 'forward' or
'reverse' and speed is always an integer in [0,100]. -/
theorem motor_state_invariant (ops : List UiOp) :
    ((runUiOps initialController ops).motorState.direction = "forward" ∨
      (runUiOps initialController ops).motorState.direction = "reverse") ∧
    0 ≤ (runUiOps initialController ops).motorState.speed ∧
    (runUiOps initialController ops).motorState.speed ≤ 100 := by
  suffices h : ∀ c : Controller,
      ((c.motorState.direction = "forward" ∨ c.motorState.direction = "reverse") ∧
        0 ≤ c.motorState.speed ∧ c.motorState.speed ≤ 100) →
      ((runUiOps c ops).motorState.direction = "forward" ∨
        (runUiOps c ops).motorState.direction = "reverse") ∧
      0 ≤ (runUiOps c ops).motorState.speed ∧ (runUiOps c ops).motorState.speed ≤ 100 by
    exact h initialController ⟨Or.inl rfl, by decide, by decide⟩
  induction ops with
  | nil => exact fun c h => h
  | cons op rest ih =>
    intro c h
    exact ih (applyUiOp c op) (applyUiOp_motorState_inv c op h)

/-- C7: each mutator stores the updated motor state and re-renders the
UI whether or not the controller is connected, and appends a message to
the published stream exactly when isConnected is true (stated for
states where a connected controller holds a session handle, which is
how the only assignment of isConnected leaves the state). -/
theorem mutators_update_ui_publish_iff_connected (n : Int) (ts : String) (c : Controller)
    (hc : c.isConnected = true → c.client.isSome) :
    ((setSpeed n ts c).motorState = setSpeedState n c.motorState ∧
      (setSpeed n ts c).ui = renderUI (setSpeed n ts c).motorState c.isConnected ∧
      (setSpeed n ts c).published =
        (if c.isConnected then
          c.published ++ [(topics_motor, motorStateJson (setSpeedState n c.motorState) ts)]
        else c.published)) ∧
    ((toggleMotor ts c).motorState = toggleMotorState c.motorState ∧
      (toggleMotor ts c).ui = renderUI (toggleMotor ts c).motorState c.isConnected ∧
      (toggleMotor ts c).published =
        (if c.isConnected then
          c.published ++ [(topics_motor, motorStateJson (toggleMotorState c.motorState) ts)]
        else c.published)) ∧
    ((toggleDirection ts c).motorState = toggleDirectionState c.motorState ∧
      (toggleDirection ts c).ui = renderUI (toggleDirection ts c).motorState c.isConnected ∧
      (toggleDirection ts c).published =
        (if c.isConnected then
          c.published ++ [(topics_motor, motorStateJson (toggleDirectionState c.motorState) ts)]
        else c.published)) := by
  have hcond : (c.client.isSome && c.isConnected) = c.isConnected := by
    cases hco : c.isConnected with
    | false => simp
    | true => simp [hc hco]
  refine ⟨⟨?_, ?_, ?_⟩, ⟨?_, ?_, ?_⟩, ⟨?_, ?_, ?_⟩⟩
  · exact mutate_motorState _ _ _ _
  · rw [show (setSpeed n ts c).motorState = setSpeedState n c.motorState from
      mutate_motorState _ _ _ _]
    exact mutate_ui _ _ _ _
  · rw [show (setSpeed n ts c).published = _ from mutate_published _ _ _ _, hcond]
  · exact mutate_motorState _ _ _ _
  · rw [show (toggleMotor ts c).motorState = toggleMotorState c.motorState from
      mutate_motorState _ _ _ _]
    exact mutate_ui _ _ _ _
  · rw [show (toggleMotor ts c).published = _ from mutate_published _ _ _ _, hcond]
  · exact mutate_motorState _ _ _ _
  · rw [show (toggleDirection ts c).motorState = toggleDirectionState c.motorState from
      mutate_motorState _ _ _ _]
    exact mutate_ui _ _ _ _
  · rw [show (toggleDirection ts c).published = _ from mutate_published _ _ _ _, hcond]

/-- Witness for C7 at a concrete connected controller state. -/
theorem mutators_update_ui_publish_iff_connected_witness :
    ((setSpeed 30 "t" exampleConnected).motorState =
        setSpeedState 30 exampleConnected.motorState ∧
      (setSpeed 30 "t" exampleConnected).ui =
        renderUI (setSpeed 30 "t" exampleConnected).motorState exampleConnected.isConnected ∧
      (setSpeed 30 "t" exampleConnected).published =
        (if exampleConnected.isConnected then
          exampleConnected.published ++
            [(topics_motor, motorStateJson (setSpeedState 30 exampleConnected.motorState) "t")]
        else exampleConnected.published)) ∧
    ((toggleMotor "t" exampleConnected).motorState = toggleMotorState exampleConnected.motorState ∧
      (toggleMotor "t" exampleConnected).ui =
        renderUI (toggleMotor "t" exampleConnected).motorState exampleConnected.isConnected ∧
      (toggleMotor "t" exampleConnected).published =
        (if exampleConnected.isConnected then
          exampleConnected.published ++
            [(topics_motor, motorStateJson (toggleMotorState exampleConnected.motorState) "t")]
        else exampleConnected.published)) ∧
    ((toggleDirection "t" exampleConnected).motorState =
        toggleDirectionState exampleConnected.motorState ∧
      (toggleDirection "t" exampleConnected).ui =
        renderUI (toggleDirection "t" exampleConnected).motorState exampleConnected.isConnected ∧
      (toggleDirection "t" exampleConnected).published =
        (if exampleConnected.isConnected then
          exampleConnected.published ++
            [(topics_motor, motorStateJson (toggleDirectionState exampleConnected.motorState) "t")]
        else exampleConnected.published)) :=
  mutators_update_ui_publish_iff_connected 30 "t" exampleConnected (by decide)

/-- C8: while connected (with an open session handle), each mutator
publishes exactly one message: the JSON serialization of an object with
exactly the four fields isOn, speed, direction, timestamp, in which
isOn, speed and direction equal the motor state after the mutation. -/
theorem published_message_shape (n : Int) (ts : String) (c : Controller)
    (hco : c.isConnected = true) (hcl : c.client.isSome) :
    (setSpeed n ts c).published = c.published ++
      [(topics_motor, jsonStringify
        [("isOn", JValue.jbool (setSpeed n ts c).motorState.isOn),
         ("speed", JValue.jint (setSpeed n ts c).motorState.speed),
         ("direction", JValue.jstr (setSpeed n ts c).motorState.direction),
         ("timestamp", JValue.jstr ts)])] ∧
    (toggleMotor ts c).published = c.published ++
      [(topics_motor, jsonStringify
        [("isOn", JValue.jbool (toggleMotor ts c).motorState.isOn),
         ("speed", JValue.jint (toggleMotor ts c).motorState.speed),
         ("direction", JValue.jstr (toggleMotor ts c).motorState.direction),
         ("timestamp", JValue.jstr ts)])] ∧
    (toggleDirection ts c).published = c.published ++
      [(topics_motor, jsonStringify
        [("isOn", JValue.jbool (toggleDirection ts c).motorState.isOn),
         ("speed", JValue.jint (toggleDirection ts c).motorState.speed),
         ("direction", JValue.jstr (toggleDirection ts c).motorState.direction),
         ("timestamp", JValue.jstr ts)])] := by
  have hcond : (c.client.isSome && c.isConnected) = true := by simp [hco, hcl]
  refine ⟨?_, ?_, ?_⟩
  · rw [show (setSpeed n ts c).published = _ from mutate_published _ _ _ _, hcond,
      show (setSpeed n ts c).motorState = setSpeedState n c.motorState from
        mutate_motorState _ _ _ _]
    rfl
  · rw [show (toggleMotor ts c).published = _ from mutate_published _ _ _ _, hcond,
      show (toggleMotor ts c).motorState = toggleMotorState c.motorState from
        mutate_motorState _ _ _ _]
    rfl
  · rw [show (toggleDirection ts c).published = _ from mutate_published _ _ _ _, hcond,
      show (toggleDirection ts c).motorState = toggleDirectionState c.motorState from
        mutate_motorState _ _ _ _]
    rfl

/-- Witness for C8 at a concrete connected controller state. -/
theorem published_message_shape_witness :
    (setSpeed 55 "t8" exampleConnected).published = exampleConnected.published ++
      [(topics_motor, jsonStringify
        [("isOn", JValue.jbool (setSpeed 55 "t8" exampleConnected).motorState.isOn),
         ("speed", JValue.jint (setSpeed 55 "t8" exampleConnected).motorState.speed),
         ("direction", JValue.jstr (setSpeed 55 "t8" exampleConnected).motorState.direction),
         ("timestamp", JValue.jstr "t8")])] ∧
    (toggleMotor "t8" exampleConnected).published = exampleConnected.published ++
      [(topics_motor, jsonStringify
        [("isOn", JValue.jbool (toggleMotor "t8" exampleConnected).motorState.isOn),
         ("speed", JValue.jint (toggleMotor "t8" exampleConnected).motorState.speed),
         ("direction", JValue.jstr (toggleMotor "t8" exampleConnected).motorState.direction),
         ("timestamp", JValue.jstr "t8")])] ∧
    (toggleDirection "t8" exampleConnected).published = exampleConnected.published ++
      [(topics_motor, jsonStringify
        [("isOn", JValue.jbool (toggleDirection "t8" exampleConnected).motorState.isOn),
         ("speed", JValue.jint (toggleDirection "t8" exampleConnected).motorState.speed),
         ("direction", JValue.jstr (toggleDirection "t8" exampleConnected).motorState.direction),
         ("timestamp", JValue.jstr "t8")])] :=
  published_message_shape 55 "t8" exampleConnected rfl rfl

/-- C4: for a broker URL that is non-empty after trimming and starts
with none of ws://, wss://, mqtt://, and a non-empty client ID,
connect() fails without the connection state ever becoming connected:
isConnected stays false, the status indicator ends at error, and the
status updates made by the call never include connected. -/
theorem connect_bad_scheme_errors (u cid ts : String) (paho : Bool)
    (oc : SessionOutcome) (c : Controller)
    (h1 : jsTrim u ≠ "")
    (h2 : strStartsWith (jsTrim u) "ws://" = false)
    (h3 : strStartsWith (jsTrim u) "wss://" = false)
    (h4 : strStartsWith (jsTrim u) "mqtt://" = false)
    (h5 : jsTrim cid ≠ "")
    (h6 : c.isConnected = false) :
    (connect u cid paho oc ts c).isConnected = false ∧
    (connect u cid paho oc ts c).connectionStatus = "error" ∧
    ∃ tr, (connect u cid paho oc ts c).statusHistory = c.statusHistory ++ tr ∧
      "connected" ∉ tr ∧ tr.getLast? = some "error" := by
  have hpb : parseBroker (jsTrim u) = none := by
    unfold parseBroker
    rw [h2, h3, h4]
    simp
  cases paho with
  | false =>
    refine ⟨?_, ?_, ["error"], ?_, by decide, by decide⟩ <;>
      simp [connect, h1, h5, updateConnectionStatus, ctrlLog, h6]
  | true =>
    refine ⟨?_, ?_, ["connecting", "error"], ?_, by decide, by decide⟩ <;>
      simp [connect, h1, h5, hpb, updateConnectionStatus, ctrlLog, h6]

/-- Witness for C4: a URL with the unsupported http scheme. -/
theorem connect_bad_scheme_errors_witness :
    (connect "http://h" "id" true SessionOutcome.success "t4" initialController).isConnected
        = false ∧
    (connect "http://h" "id" true SessionOutcome.success "t4" initialController).connectionStatus
        = "error" ∧
    ∃ tr, (connect "http://h" "id" true SessionOutcome.success "t4"
          initialController).statusHistory =
        initialController.statusHistory ++ tr ∧
      "connected" ∉ tr ∧ tr.getLast? = some "error" :=
  connect_bad_scheme_errors "http://h" "id" "t4" true SessionOutcome.success initialController
    (by decide) (by decide) (by decide) (by decide) (by decide) rfl

/-- C5: for every topic and every payload on which the JSON parse
fails, handleIncomingMessage returns normally through the catch branch,
appending one log entry that contains the raw payload string: the call
equals a plain log of the line Received on topic: payload, and that
line, payload included verbatim, is the newest log entry. -/
theorem handleIncomingMessage_bad_json_logs_raw
    (parse : String → Option JsonData) (ts topic payload : String) (c : Controller)
    (h : parse payload = none) :
    handleIncomingMessage parse ts topic payload c =
      ctrlLog ts ("Received on " ++ topic ++ ": " ++ payload) c ∧
    (handleIncomingMessage parse ts topic payload c).log.getLast? =
      some (logEntryText ts ("Received on " ++ topic ++ ": " ++ payload)) ∧
    ∃ pre post,
      logEntryText ts ("Received on " ++ topic ++ ": " ++ payload) = pre ++ payload ++ post := by
  have h1 : handleIncomingMessage parse ts topic payload c =
      ctrlLog ts ("Received on " ++ topic ++ ": " ++ payload) c := by
    unfold handleIncomingMessage
    rw [h]
  refine ⟨h1, ?_, "[" ++ ts ++ "] " ++ ("Received on " ++ topic ++ ": "), "", ?_⟩
  · rw [h1, ctrlLog_log]
    exact addLogEntry_getLast _ _ _
  · unfold logEntryText
    simp [String.append_assoc]

/-- Witness for C5: a parser that rejects the payload, on the status
topic. -/
theorem handleIncomingMessage_bad_json_logs_raw_witness :
    handleIncomingMessage (fun _ => none) "t5" topics_status "not-json" initialController =
      ctrlLog "t5" ("Received on " ++ topics_status ++ ": " ++ "not-json") initialController ∧
    (handleIncomingMessage (fun _ => none) "t5" topics_status "not-json"
        initialController).log.getLast? =
      some (logEntryText "t5" ("Received on " ++ topics_status ++ ": " ++ "not-json")) ∧
    ∃ pre post,
      logEntryText "t5" ("Received on " ++ topics_status ++ ": " ++ "not-json") =
        pre ++ "not-json" ++ post :=
  handleIncomingMessage_bad_json_logs_raw (fun _ => none) "t5" topics_status "not-json"
    initialController rfl

/-- Counterexample to C6 as stated: the failing connect() call with an
empty broker URL appends the reason to the log but performs no
connection-status transition at all; the status stays disconnected and
never becomes error. -/
theorem connect_missing_url_keeps_status :
    (connect "" "myclient" true SessionOutcome.success "t0" initialController).log.getLast? =
      some (logEntryText "t0" "Error: Please enter a broker URL") ∧
    (connect "" "myclient" true SessionOutcome.success "t0" initialController).connectionStatus =
      "disconnected" ∧
    (connect "" "myclient" true SessionOutcome.success "t0" initialController).connectionStatus ≠
      "error" ∧
    (connect "" "myclient" true SessionOutcome.success "t0" initialController).statusHistory =
      [] := by
  decide

/-- C6 amended: every failing invocation of connect() appends the
reason for the failure to the log, but only the failures thrown or
reported inside the try block (missing Paho library, unsupported
scheme, session failure) also set the connection status to error; the
early rejections for a missing broker URL or client ID leave the
connection status unchanged. -/
theorem connect_failure_logging (u cid ts err : String) (paho : Bool)
    (oc : SessionOutcome) (c : Controller)
    (hfail : jsTrim u = "" ∨ jsTrim cid = "" ∨ paho = false ∨
      parseBroker (jsTrim u) = none ∨ oc = SessionOutcome.failure err) :
    (connect u cid paho oc ts c).log.getLast? = some (logEntryText ts
      (if jsTrim u = "" then "Error: Please enter a broker URL"
       else if jsTrim cid = "" then "Error: Please enter a client ID"
       else if paho = false then "Connection failed: Paho MQTT library not loaded"
       else if parseBroker (jsTrim u) = none then
         "Connection failed: Unsupported protocol. Use ws://, wss://, or mqtt://"
       else "Connection failed: " ++ err)) ∧
    (connect u cid paho oc ts c).connectionStatus =
      (if jsTrim u = "" ∨ jsTrim cid = "" then c.connectionStatus else "error") := by
  by_cases h1 : jsTrim u = ""
  · constructor
    · rw [if_pos h1]
      simp [connect, h1, ctrlLog_log, addLogEntry_getLast]
    · rw [if_pos (Or.inl h1)]
      simp [connect, h1, ctrlLog]
  · by_cases h2 : jsTrim cid = ""
    · constructor
      · rw [if_neg h1, if_pos h2]
        simp [connect, h1, h2, ctrlLog_log, addLogEntry_getLast]
      · rw [if_pos (Or.inr h2)]
        simp [connect, h1, h2, ctrlLog]
    · have hor : ¬ (jsTrim u = "" ∨ jsTrim cid = "") := by
        intro h
        rcases h with h | h
        · exact h1 h
        · exact h2 h
      cases paho with
      | false =>
        constructor
        · rw [if_neg h1, if_neg h2, if_pos rfl]
          simp [connect, h1, h2, updateConnectionStatus, ctrlLog_log, addLogEntry_getLast]
        · rw [if_neg hor]
          simp [connect, h1, h2, updateConnectionStatus, ctrlLog]
      | true =>
        have h3 : ¬ (true = false) := by decide
        cases hpo : parseBroker (jsTrim u) with
        | none =>
          constructor
          · rw [if_neg h1, if_neg h2, if_neg h3, if_pos rfl]
            simp [connect, h1, h2, hpo, updateConnectionStatus, ctrlLog_log,
              addLogEntry_getLast]
          · rw [if_neg hor]
            simp [connect, h1, h2, hpo, updateConnectionStatus, ctrlLog]
        | some p =>
          obtain ⟨ph, pp, ps⟩ := p
          have hoc : oc = SessionOutcome.failure err := by
            rcases hfail with h | h | h | h | h
            · exact absurd h h1
            · exact absurd h h2
            · exact absurd h (by decide)
            · rw [hpo] at h
              cases h
            · exact h
          subst hoc
          constructor
          · rw [if_neg h1, if_neg h2, if_neg h3, if_neg (by simp)]
            simp [connect, h1, h2, hpo, updateConnectionStatus, ctrlLog_log,
              addLogEntry_getLast]
          · rw [if_neg hor]
            simp [connect, h1, h2, hpo, updateConnectionStatus, ctrlLog]

/-- Witness for the amended C6 at a concrete session failure. -/
theorem connect_failure_logging_witness :
    (connect "ws://h" "id" true (SessionOutcome.failure "boom") "t6"
        initialController).log.getLast? = some (logEntryText "t6"
      (if jsTrim "ws://h" = "" then "Error: Please enter a broker URL"
       else if jsTrim "id" = "" then "Error: Please enter a client ID"
       else if (true : Bool) = false then "Connection failed: Paho MQTT library not loaded"
       else if parseBroker (jsTrim "ws://h") = none then
         "Connection failed: Unsupported protocol. Use ws://, wss://, or mqtt://"
       else "Connection failed: " ++ "boom")) ∧
    (connect "ws://h" "id" true (SessionOutcome.failure "boom") "t6"
        initialController).connectionStatus =
      (if jsTrim "ws://h" = "" ∨ jsTrim "id" = "" then initialController.connectionStatus
       else "error") :=
  connect_failure_logging "ws://h" "id" "t6" "boom" true (SessionOutcome.failure "boom")
    initialController (Or.inr (Or.inr (Or.inr (Or.inr rfl))))

/-- Counterexample to C9 as stated: after a failed connect attempt the
controller holds a session handle while isConnected is false, a state
disconnect() reaches; calling disconnect() there leaves the stored
client handle non-null, because the source nulls it only when both a
handle exists and isConnected holds. -/
theorem disconnect_keeps_stale_client :
    (disconnect "t1" (connect "ws://h" "id" true (SessionOutcome.failure "boom") "t0"
        initialController)).client ≠ none := by
  decide

/-- C9 amended: disconnect() always clears isConnected, sets the
connection status to disconnected and logs the disconnect; the stored
client handle is nulled exactly when a handle exists and the controller
is connected, and is otherwise left unchanged. -/
theorem disconnect_state (ts : String) (c : Controller) :
    (disconnect ts c).isConnected = false ∧
    (disconnect ts c).connectionStatus = "disconnected" ∧
    (disconnect ts c).client = (if c.client.isSome && c.isConnected then none else c.client) ∧
    (disconnect ts c).log.getLast? = some (logEntryText ts "Disconnected from MQTT broker") := by
  by_cases hcd : (c.client.isSome && c.isConnected) = true
  · simp [disconnect, updateConnectionStatus, ctrlLog, hcd, addLogEntry_getLast]
  · simp [disconnect, updateConnectionStatus, ctrlLog, hcd, addLogEntry_getLast]
